import Mathlib

/-!
Verification of the tool-calling notebook
`3p-integrations/gcp/vertex_MaaS/Vertex_tool_calling_for_Llama_4.ipynb`.

The notebook contains two single-pass tool-call resolution loops (one using
the OpenAI SDK, one using the Vertex SDK), a currency-exchange tool
`get_exchange_rate`, and a static tool declaration.  We embed the Python
code shallowly: JSON values become an inductive type, the HTTP library and
the remote model endpoint become oracles passed as function arguments, and
the drivers become executable functions that record the transcript, the
model queries issued, the outbound HTTP requests, and the printed output.
-/

/-- JSON values (Python objects produced by `json.loads` / consumed by
`json.dumps`).  Python `None` is represented by `Json.null`. -/
inductive Json where
  | null : Json
  | bool (b : Bool) : Json
  | num (n : Int) : Json
  | str (s : String) : Json
  | arr (xs : List Json) : Json
  | obj (fields : List (String × Json)) : Json
deriving Repr

/-- Association-list lookup with a default, embedding Python
`dict.get(key, default)` on the field list of a parsed JSON object. -/
def getD (fields : List (String × Json)) (key : String) (dflt : Json) : Json :=
  match fields.lookup key with
  | some v => v
  | none => dflt

/-- Escape a string for JSON serialization (backslash and double quote). -/
def escapeStr (s : String) : String :=
  String.join (s.toList.map fun c =>
    if c = '\\' then "\\\\"
    else if c = '"' then "\\\""
    else String.singleton c)

mutual

/-- Python `json.dumps` with its default separators: keys and values are
serialized with `", "` between items and `": "` after keys. -/
def Json.dumps : Json → String
  | .null => "null"
  | .bool true => "true"
  | .bool false => "false"
  | .num n => toString n
  | .str s => "\"" ++ escapeStr s ++ "\""
  | .arr xs => "[" ++ Json.dumpsArr xs ++ "]"
  | .obj fs => "\x7b" ++ Json.dumpsObj fs ++ "\x7d"

/-- Serialize the elements of a JSON array, comma-separated. -/
def Json.dumpsArr : List Json → String
  | [] => ""
  | [x] => Json.dumps x
  | x :: xs => Json.dumps x ++ ", " ++ Json.dumpsArr xs

/-- Serialize the fields of a JSON object, comma-separated. -/
def Json.dumpsObj : List (String × Json) → String
  | [] => ""
  | [(k, v)] => "\"" ++ escapeStr k ++ "\": " ++ Json.dumps v
  | (k, v) :: fs =>
      "\"" ++ escapeStr k ++ "\": " ++ Json.dumps v ++ ", " ++ Json.dumpsObj fs

end

/-- Python `str()` as used by the notebook f-string
`f"https://api.frankfurter.app/{currency_date}"`.  In every run of the
notebook the date argument is a JSON string (or defaulted `"latest"`), so
only the scalar renderings matter; the rendering of composite values is
abstracted. -/
def pyStr : Json → String
  | .null => "None"
  | .bool true => "True"
  | .bool false => "False"
  | .num n => toString n
  | .str s => s
  | .arr _ => "[composite]"
  | .obj _ => "\x7bcomposite\x7d"

/-- One outbound HTTP GET issued by `requests.get(url, params)`:
the url and the `from` / `to` query parameters. -/
structure HttpRequest where
  url : String
  paramFrom : Json
  paramTo : Json
deriving Repr

/-- The outcome of evaluating `response.raise_for_status()` and
`response.json()` on a `requests` response: `statusError` is `none` for a
2xx status and carries `str(HTTPError)` otherwise; `jsonBody` is the parsed
body or the decode-error message. -/
structure HttpResponse where
  statusError : Option String
  jsonBody : Except String Json
deriving Repr

/-- What `requests.get` produces: either the call itself raises
(network fault, timeout) with message `str(e)`, or it returns a response. -/
inductive HttpOutcome where
  | fault (msg : String) : HttpOutcome
  | response (r : HttpResponse) : HttpOutcome
deriving Repr

/-- The exchange-rate service as an oracle mapping each request to its
outcome. -/
def HttpService := HttpRequest → HttpOutcome

/-- Build the request issued by `get_exchange_rate`:
`url = f"https://api.frankfurter.app/{currency_date}"`,
`params = {"from": currency_from, "to": currency_to}`. -/
def mkExchangeRequest (currency_date currency_from currency_to : Json) :
    HttpRequest :=
  { url := "https://api.frankfurter.app/" ++ pyStr currency_date
    paramFrom := currency_from
    paramTo := currency_to }

/-- The OpenAI-SDK variant of `get_exchange_rate` (notebook cell 6).  The
whole body is inside `try`, and `except Exception as e` returns the string
`"Error fetching exchange rate: " + str(e)`; on success it returns
`json.dumps(response.json())`.  The second component is the list of
outbound requests issued by the invocation. -/
def get_exchange_rate_openai (http : HttpService)
    (currency_date currency_from currency_to : Json) :
    String × List HttpRequest :=
  let req := mkExchangeRequest currency_date currency_from currency_to
  match http req with
  | .fault e => ("Error fetching exchange rate: " ++ e, [req])
  | .response r =>
    match r.statusError with
    | some e => ("Error fetching exchange rate: " ++ e, [req])
    | none =>
      match r.jsonBody with
      | .error e => ("Error fetching exchange rate: " ++ e, [req])
      | .ok j => (Json.dumps j, [req])

/-- The Vertex-SDK variant of `get_exchange_rate` (notebook cell 16).
Identical control flow, but on success it returns `response.json()` itself
(a JSON object, not a serialized string) and on failure the dict
`{"error": str(e)}`. -/
def get_exchange_rate_vertex (http : HttpService)
    (currency_date currency_from currency_to : Json) :
    Json × List HttpRequest :=
  let req := mkExchangeRequest currency_date currency_from currency_to
  match http req with
  | .fault e => (Json.obj [("error", Json.str e)], [req])
  | .response r =>
    match r.statusError with
    | some e => (Json.obj [("error", Json.str e)], [req])
    | none =>
      match r.jsonBody with
      | .error e => (Json.obj [("error", Json.str e)], [req])
      | .ok j => (j, [req])

/-- One tool call in an OpenAI completion message
(`tool_call.id`, `tool_call.function.name`, `tool_call.function.arguments`,
the arguments being a raw JSON string). -/
structure ToolCall where
  id : String
  name : String
  arguments : String
deriving Repr, DecidableEq

/-- `completion.choices[0].message` of the OpenAI SDK: the text content and
the list of requested tool calls (`None` is represented by `[]`, matching
Python truthiness). -/
structure ChatMsg where
  content : String
  tool_calls : List ToolCall
deriving Repr

/-- One entry of the OpenAI variant's `messages` list: either a user turn,
the appended assistant message object, or a tool turn
`{"role": "tool", "tool_call_id": id, "content": content}`. -/
inductive Turn where
  | user (text : String) : Turn
  | assistant (msg : ChatMsg) : Turn
  | tool (tool_call_id : String) (content : String) : Turn
deriving Repr

/-- Everything observable about one run of the OpenAI variant `main()`:
the final `messages` list, the transcripts sent to the model endpoint in
order (one per `client.chat.completions.create` call), the outbound HTTP
requests issued in order, the tool results computed in order, and the
lines printed. -/
structure OpenAITrace where
  messages : List Turn
  sent : List (List Turn)
  execs : List HttpRequest
  results : List String
  outputs : List String
deriving Repr

/-- The remote model as an oracle: the k-th `create` call of a run returns
`model k` (the transcripts actually sent are recorded in the trace). -/
def ModelOracle := Nat → ChatMsg

/-- Python `json.loads` as an oracle: `none` means the string is not valid
JSON and `json.loads` raises `JSONDecodeError`. -/
def JsonLoads := String → Option Json

/-- The message of the exception that escapes `main` when `json.loads`
raises on malformed tool-call arguments (the call is not guarded by any
`try` in the notebook). -/
def jsonDecodeError : String := "json.decoder.JSONDecodeError"

/-- The exception that escapes when `args.get` is called on a parsed value
that is not a dict. -/
def attributeError : String := "AttributeError"

/-- The body of the `for tool_call in completion.choices[0].message.tool_calls`
loop of the OpenAI variant `main()` (notebook cell 10).  For each call named
`"get_exchange_rate"` it parses the raw arguments with `json.loads`
(unguarded: a parse failure aborts the whole run), extracts the three
arguments with `args.get` (defaulting `currency_date` to `"latest"`, the
other two to `None`), runs `get_exchange_rate`, appends the assistant
message and a tool turn to `messages`, and immediately issues a follow-up
`create` call and prints its text — the follow-up is inside the loop.
Calls with any other name fall through the `if` and are skipped silently. -/
def runToolCalls (model : ModelOracle) (http : HttpService)
    (loads : JsonLoads) (completion : ChatMsg) (calls : List ToolCall)
    (messages : List Turn) (qCount : Nat) (sent : List (List Turn))
    (execs : List HttpRequest) (results outputs : List String) :
    Except String OpenAITrace :=
  match calls with
  | [] => .ok ⟨messages, sent, execs, results, outputs⟩
  | tc :: rest =>
    if tc.name = "get_exchange_rate" then
      match loads tc.arguments with
      | none => .error jsonDecodeError
      | some args =>
        match args with
        | .obj fields =>
          let currency_date := getD fields "currency_date" (Json.str "latest")
          let currency_from := getD fields "currency_from" Json.null
          let currency_to := getD fields "currency_to" Json.null
          let r := get_exchange_rate_openai http currency_date currency_from
            currency_to
          let messages := messages ++
            [Turn.assistant completion, Turn.tool tc.id r.1]
          let final := model qCount
          runToolCalls model http loads completion rest messages (qCount + 1)
            (sent ++ [messages]) (execs ++ r.2) (results ++ [r.1])
            (outputs ++ ["Final response: " ++ final.content])
        | _ => .error attributeError
    else
      runToolCalls model http loads completion rest messages qCount sent
        execs results outputs

/-- The OpenAI variant `main()` (notebook cell 10).  `user_query` is read
from input but never used: the first `create` call sends the global
`messages`, a name that is never defined anywhere in the notebook; we model
that global by the parameter `messages0`.  If the first response carries
tool calls the loop above runs; otherwise the response text is printed
directly. -/
def mainOpenAI (model : ModelOracle) (http : HttpService)
    (loads : JsonLoads) (messages0 : List Turn) (user_query : String) :
    Except String OpenAITrace :=
  let completion := model 0
  if completion.tool_calls = [] then
    .ok ⟨messages0, [messages0], [], [],
      ["Direct response: " ++ completion.content]⟩
  else
    runToolCalls model http loads completion completion.tool_calls messages0 1
      [messages0] [] [] []

/-- One entry of `response.candidates[0].function_calls` in the Vertex SDK:
name plus already-structured arguments (a dict-like mapping, not a raw
string — no JSON parsing happens in the Vertex variant). -/
structure VFunctionCall where
  name : String
  args : List (String × Json)
deriving Repr

/-- A Vertex model response: its text and its requested function calls
(empty list for a direct answer, matching Python truthiness). -/
structure VertexResponse where
  text : String
  function_calls : List VFunctionCall
deriving Repr

/-- One entry of the Vertex chat history: the user turn sent by
`chat.send_message(user_query)`, a model response appended by the SDK, or
the `Content(role="function", parts=[Part.from_function_response(...)])`
turn sent back by the driver. -/
inductive VTurn where
  | user (text : String) : VTurn
  | modelResp (r : VertexResponse) : VTurn
  | functionResp (name : String) (response : Json) : VTurn
deriving Repr

/-- Everything observable about one run of the Vertex variant `main()`:
the final chat history, the outbound HTTP requests issued in order, the
tool results computed in order, and the lines printed. -/
structure VertexTrace where
  history : List VTurn
  execs : List HttpRequest
  results : List Json
  outputs : List String
deriving Repr

/-- The Vertex model as an oracle: the k-th `send_message` call of a run
returns `model k`. -/
def VModelOracle := Nat → VertexResponse

/-- The body of the `for function_call in response.candidates[0].function_calls`
loop of the Vertex variant `main()` (notebook cell 20).  For each call
named `"get_exchange_rate"` it extracts the arguments with `args.get`
(defaulting `currency_date` to `"latest"`, the other two to `None`), runs
`get_exchange_rate`, sends the function response back with
`chat.send_message` (which appends the function turn and the model reply
to the history) and prints the reply text — again inside the loop.  Calls
with any other name are skipped silently. -/
def runFunctionCalls (model : VModelOracle) (http : HttpService)
    (calls : List VFunctionCall) (history : List VTurn) (qCount : Nat)
    (execs : List HttpRequest) (results : List Json) (outputs : List String) :
    VertexTrace :=
  match calls with
  | [] => ⟨history, execs, results, outputs⟩
  | fc :: rest =>
    if fc.name = "get_exchange_rate" then
      let currency_date := getD fc.args "currency_date" (Json.str "latest")
      let currency_from := getD fc.args "currency_from" Json.null
      let currency_to := getD fc.args "currency_to" Json.null
      let r := get_exchange_rate_vertex http currency_date currency_from
        currency_to
      let final := model qCount
      runFunctionCalls model http rest
        (history ++ [VTurn.functionResp "get_exchange_rate" r.1,
          VTurn.modelResp final])
        (qCount + 1) (execs ++ r.2) (results ++ [r.1])
        (outputs ++ ["Final response: " ++ final.text])
    else
      runFunctionCalls model http rest history qCount execs results outputs

/-- The Vertex variant `main()` (notebook cell 20).  `chat.send_message`
appends the user query and the model response to the fresh chat history;
if the response carries function calls the loop above runs; otherwise the
response text is printed directly. -/
def mainVertex (model : VModelOracle) (http : HttpService)
    (user_query : String) : VertexTrace :=
  let response := model 0
  let history := [VTurn.user user_query, VTurn.modelResp response]
  if response.function_calls.isEmpty then
    ⟨history, [], [], ["Direct response: " ++ response.text]⟩
  else
    runFunctionCalls model http response.function_calls history 1 [] [] []

/-- The outbound request that processing one tool call produces: `none`
when the call is skipped (name other than `"get_exchange_rate"`) and also
when its arguments fail to parse or parse to a non-dict — in those cases
the run aborts with an exception instead. -/
def reqOfCall (loads : JsonLoads) (tc : ToolCall) : Option HttpRequest :=
  if tc.name = "get_exchange_rate" then
    match loads tc.arguments with
    | some (Json.obj fields) =>
      some (mkExchangeRequest (getD fields "currency_date" (Json.str "latest"))
        (getD fields "currency_from" Json.null)
        (getD fields "currency_to" Json.null))
    | _ => none
  else none

theorem get_exchange_rate_openai_requests (http : HttpService)
    (cd cf ct : Json) :
    (get_exchange_rate_openai http cd cf ct).2 = [mkExchangeRequest cd cf ct] := by
  simp only [get_exchange_rate_openai]
  cases h : http (mkExchangeRequest cd cf ct) with
  | fault e => rfl
  | response r =>
    cases hs : r.statusError with
    | some e => simp [hs]
    | none => cases hb : r.jsonBody <;> simp [hs, hb]

theorem get_exchange_rate_vertex_requests (http : HttpService)
    (cd cf ct : Json) :
    (get_exchange_rate_vertex http cd cf ct).2 = [mkExchangeRequest cd cf ct] := by
  simp only [get_exchange_rate_vertex]
  cases h : http (mkExchangeRequest cd cf ct) with
  | fault e => rfl
  | response r =>
    cases hs : r.statusError with
    | some e => simp [hs]
    | none => cases hb : r.jsonBody <;> simp [hs, hb]

/-- Accumulator-general characterization of a successful loop run: the
requests issued are those of the processed calls in response order, and
each processed call contributes exactly one follow-up model query, one
result and one printed line. -/
theorem runToolCalls_ok_spec (model : ModelOracle) (http : HttpService)
    (loads : JsonLoads) (completion : ChatMsg) (calls : List ToolCall) :
    ∀ messages qCount sent execs results outputs t,
      runToolCalls model http loads completion calls messages qCount sent
        execs results outputs = .ok t →
      t.execs = execs ++ calls.filterMap (reqOfCall loads) ∧
      t.sent.length = sent.length + (calls.filterMap (reqOfCall loads)).length ∧
      t.results.length =
        results.length + (calls.filterMap (reqOfCall loads)).length ∧
      t.outputs.length =
        outputs.length + (calls.filterMap (reqOfCall loads)).length := by
  induction calls with
  | nil =>
    intro messages qCount sent execs results outputs t h
    simp only [runToolCalls] at h
    cases h
    simp
  | cons tc rest ih =>
    intro messages qCount sent execs results outputs t h
    simp only [runToolCalls] at h
    split at h
    · rename_i hname
      split at h
      · exact absurd h (by simp)
      · rename_i args hload
        split at h
        · rename_i fields
          have h2 := ih _ _ _ _ _ _ _ h
          have hreq : reqOfCall loads tc =
              some (mkExchangeRequest
                (getD fields "currency_date" (Json.str "latest"))
                (getD fields "currency_from" Json.null)
                (getD fields "currency_to" Json.null)) := by
            simp [reqOfCall, hname, hload]
          rw [get_exchange_rate_openai_requests] at h2
          obtain ⟨he, hs, hr, ho⟩ := h2
          simp only [List.length_append, List.length_cons, List.length_nil]
            at hs hr ho
          rw [List.filterMap_cons, hreq]
          refine ⟨by rw [he]; simp, ?_, ?_, ?_⟩ <;>
            simp only [List.length_cons] <;> omega
        · exact absurd h (by simp)
    · rename_i hname
      have h2 := ih _ _ _ _ _ _ _ h
      have hreq : reqOfCall loads tc = none := by
        simp [reqOfCall, hname]
      simpa [List.filterMap_cons, hreq] using h2

/-- The tool-resolution part of a trace: everything except the texts of the
printed lines (which quote the follow-up responses), used to state that
tool resolution ignores every response after the first. -/
def resolutionView (t : OpenAITrace) :
    List Turn × List (List Turn) × List HttpRequest × List String × Nat :=
  (t.messages, t.sent, t.execs, t.results, t.outputs.length)

/-- The loop never consults the model responses for further tool calls:
two runs against model oracles that may differ on every follow-up response
produce the same messages, the same sent transcripts, the same requests,
the same results and the same number of printed lines. -/
theorem runToolCalls_first_response_only (m₁ m₂ : ModelOracle)
    (http : HttpService) (loads : JsonLoads) (completion : ChatMsg)
    (calls : List ToolCall) :
    ∀ messages qCount sent execs results outputs₁ outputs₂,
      outputs₁.length = outputs₂.length →
      (runToolCalls m₁ http loads completion calls messages qCount sent execs
          results outputs₁).map resolutionView =
      (runToolCalls m₂ http loads completion calls messages qCount sent execs
          results outputs₂).map resolutionView := by
  induction calls with
  | nil =>
    intro messages qCount sent execs results outputs₁ outputs₂ h
    simp [runToolCalls, Except.map, resolutionView, h]
  | cons tc rest ih =>
    intro messages qCount sent execs results outputs₁ outputs₂ h
    by_cases hname : tc.name = "get_exchange_rate"
    · simp only [runToolCalls, if_pos hname]
      cases hload : loads tc.arguments with
      | none => rfl
      | some args =>
        cases args with
        | obj fields => exact ih _ _ _ _ _ _ _ (by simp [h])
        | null => rfl
        | bool b => rfl
        | num n => rfl
        | str s => rfl
        | arr xs => rfl
    · simp only [runToolCalls, if_neg hname]
      exact ih _ _ _ _ _ _ _ h

/-- A batch in which no call is named `"get_exchange_rate"` is a no-op:
every call falls through the `if` silently and the accumulators come back
unchanged. -/
theorem runToolCalls_skip_all (model : ModelOracle) (http : HttpService)
    (loads : JsonLoads) (completion : ChatMsg) (calls : List ToolCall) :
    ∀ messages qCount sent execs results outputs,
      (∀ tc ∈ calls, tc.name ≠ "get_exchange_rate") →
      runToolCalls model http loads completion calls messages qCount sent
        execs results outputs = .ok ⟨messages, sent, execs, results, outputs⟩ := by
  induction calls with
  | nil =>
    intro messages qCount sent execs results outputs _
    simp [runToolCalls]
  | cons tc rest ih =>
    intro messages qCount sent execs results outputs h
    have hname := h tc (List.mem_cons_self tc rest)
    simp only [runToolCalls, if_neg hname]
    exact ih _ _ _ _ _ _ (fun x hx => h x (List.mem_cons_of_mem tc hx))

/-- The request that the argument extraction of the driver builds from the
parsed arguments: `currency_date` defaulted to `"latest"`, the two
currencies defaulted to `None`. -/
def exchangeRequestOf (fields : List (String × Json)) : HttpRequest :=
  mkExchangeRequest (getD fields "currency_date" (Json.str "latest"))
    (getD fields "currency_from" Json.null) (getD fields "currency_to" Json.null)

/-- The string result of the OpenAI-variant tool execution on the parsed
arguments. -/
def exchangeResult (http : HttpService) (fields : List (String × Json)) :
    String :=
  (get_exchange_rate_openai http (getD fields "currency_date" (Json.str "latest"))
    (getD fields "currency_from" Json.null)
    (getD fields "currency_to" Json.null)).1

/-- Full computation of an OpenAI-variant run whose first response carries
exactly one tool call named `"get_exchange_rate"` with arguments parsing
to a dict. -/
theorem mainOpenAI_single_call (model : ModelOracle) (http : HttpService)
    (loads : JsonLoads) (messages0 : List Turn) (q : String) (tc : ToolCall)
    (fields : List (String × Json))
    (h0 : (model 0).tool_calls = [tc])
    (hname : tc.name = "get_exchange_rate")
    (hload : loads tc.arguments = some (Json.obj fields)) :
    mainOpenAI model http loads messages0 q =
      .ok ⟨messages0 ++ [Turn.assistant (model 0),
          Turn.tool tc.id (exchangeResult http fields)],
        [messages0, messages0 ++ [Turn.assistant (model 0),
          Turn.tool tc.id (exchangeResult http fields)]],
        [exchangeRequestOf fields],
        [exchangeResult http fields],
        ["Final response: " ++ (model 1).content]⟩ := by
  simp only [mainOpenAI, h0]
  simp only [List.cons_ne_nil, if_false, reduceCtorEq, ite_false]
  simp only [runToolCalls, if_pos hname, hload]
  simp [exchangeResult, exchangeRequestOf, get_exchange_rate_openai_requests]

/-- Raw arguments string `{"currency_from": "USD", "currency_to": "EUR"}`. -/
def argsUsdEur : String :=
  "\x7b\"currency_from\": \"USD\", \"currency_to\": \"EUR\"\x7d"

/-- Raw arguments string `{"currency_to": "EUR"}` (required field missing). -/
def argsOnlyTo : String := "\x7b\"currency_to\": \"EUR\"\x7d"

/-- A concrete `json.loads` oracle deciding just the argument strings the
concrete scenarios use; everything else is not valid JSON for it. -/
def loadsFix : JsonLoads := fun s =>
  if s = argsUsdEur then
    some (Json.obj [("currency_from", Json.str "USD"),
      ("currency_to", Json.str "EUR")])
  else if s = argsOnlyTo then
    some (Json.obj [("currency_to", Json.str "EUR")])
  else none

/-- A USD→EUR call as the model would request it. -/
def usdEurCall : ToolCall := ⟨"call_1", "get_exchange_rate", argsUsdEur⟩

/-- A second USD→EUR call with a distinct call id. -/
def usdEurCall2 : ToolCall := ⟨"call_2", "get_exchange_rate", argsUsdEur⟩

/-- A call to a name absent from the notebook's dispatch (`if` chain). -/
def unknownCall : ToolCall := ⟨"call_9", "unknown_tool", "\x7b\x7d"⟩

/-- A registered call whose raw arguments are not valid JSON. -/
def badArgsCall : ToolCall := ⟨"call_7", "get_exchange_rate", "not json"⟩

/-- A model that requests one USD→EUR call and then answers. -/
def modelOneCall : ModelOracle := fun k =>
  if k = 0 then ⟨"", [usdEurCall]⟩
  else ⟨"The exchange rate for 100 USD is 88.645 EUR.", []⟩

/-- A model that requests two USD→EUR calls in one response. -/
def modelTwoCalls : ModelOracle := fun k =>
  if k = 0 then ⟨"", [usdEurCall, usdEurCall2]⟩ else ⟨"done", []⟩

/-- A model requesting one unregistered tool. -/
def modelUnknown : ModelOracle := fun k =>
  if k = 0 then ⟨"", [unknownCall]⟩ else ⟨"follow", []⟩

/-- A model requesting one registered call with malformed arguments. -/
def modelBadArgs : ModelOracle := fun k =>
  if k = 0 then ⟨"", [badArgsCall]⟩ else ⟨"follow", []⟩

/-- A model identical to `modelOneCall` on the first response whose
follow-up response requests yet another tool call. -/
def modelSecondHasCalls : ModelOracle := fun k =>
  if k = 0 then ⟨"", [usdEurCall]⟩ else ⟨"again", [usdEurCall]⟩

/-- A service on which every request faults with message `"boom"`. -/
def httpBoom : HttpService := fun _ => HttpOutcome.fault "boom"

/-- The exchange-rate body the notebook's sample run quotes. -/
def rateBody : Json :=
  Json.obj [("amount", Json.num 1), ("base", Json.str "USD"),
    ("date", Json.str "2025-04-01"),
    ("rates", Json.obj [("EUR", Json.num 88)])]

/-- A service answering every request with status 2xx and `rateBody`. -/
def httpOk : HttpService := fun _ =>
  HttpOutcome.response ⟨none, Except.ok rateBody⟩

/-- C2: a model response with exactly one tool call for the registered tool
leads to exactly one tool execution (one outbound request, one result),
exactly one appended `tool` turn tagged with the original call id, exactly
one follow-up model query (two sent transcripts in total), and the
follow-up response text printed as the final answer. -/
theorem C2_single_call_resolution (model : ModelOracle) (http : HttpService)
    (loads : JsonLoads) (messages0 : List Turn) (q : String) (tc : ToolCall)
    (fields : List (String × Json))
    (h0 : (model 0).tool_calls = [tc])
    (hname : tc.name = "get_exchange_rate")
    (hload : loads tc.arguments = some (Json.obj fields)) :
    ∃ result,
      mainOpenAI model http loads messages0 q =
        .ok ⟨messages0 ++ [Turn.assistant (model 0), Turn.tool tc.id result],
          [messages0,
            messages0 ++ [Turn.assistant (model 0), Turn.tool tc.id result]],
          [exchangeRequestOf fields],
          [result],
          ["Final response: " ++ (model 1).content]⟩ :=
  ⟨exchangeResult http fields,
    mainOpenAI_single_call model http loads messages0 q tc fields h0 hname hload⟩

theorem C2_single_call_resolution_witness :
    ∃ result,
      mainOpenAI modelOneCall httpOk loadsFix [] "100 usd to eur" =
        .ok ⟨[] ++ [Turn.assistant (modelOneCall 0), Turn.tool "call_1" result],
          [[],
            [] ++ [Turn.assistant (modelOneCall 0), Turn.tool "call_1" result]],
          [exchangeRequestOf [("currency_from", Json.str "USD"),
            ("currency_to", Json.str "EUR")]],
          [result],
          ["Final response: " ++ (modelOneCall 1).content]⟩ :=
  C2_single_call_resolution modelOneCall httpOk loadsFix [] "100 usd to eur"
    usdEurCall
    [("currency_from", Json.str "USD"), ("currency_to", Json.str "EUR")]
    rfl rfl rfl

/-- C6: no invocation of `get_exchange_rate` lets a fault escape: in both
variants the result is always either the Success payload obtained by
parsing a 2xx body as JSON (the OpenAI variant serializes it, the Vertex
variant returns it as is), or a Failure value carrying a message (the
`"Error fetching exchange rate: "`-prefixed string, resp. the
`{"error": <message>}` object); the executor itself is a total function of
the service outcome. -/
theorem C6_executor_never_faults (http : HttpService) (cd cf ct : Json) :
    (∃ j, http (mkExchangeRequest cd cf ct) =
        HttpOutcome.response ⟨none, Except.ok j⟩ ∧
      (get_exchange_rate_openai http cd cf ct).1 = Json.dumps j ∧
      (get_exchange_rate_vertex http cd cf ct).1 = j) ∨
    (∃ m,
      (get_exchange_rate_openai http cd cf ct).1 =
        "Error fetching exchange rate: " ++ m ∧
      (get_exchange_rate_vertex http cd cf ct).1 =
        Json.obj [("error", Json.str m)]) := by
  cases h : http (mkExchangeRequest cd cf ct) with
  | fault e =>
    right
    exact ⟨e, by simp [get_exchange_rate_openai, h],
      by simp [get_exchange_rate_vertex, h]⟩
  | response r =>
    cases hs : r.statusError with
    | some e =>
      right
      exact ⟨e, by simp [get_exchange_rate_openai, h, hs],
        by simp [get_exchange_rate_vertex, h, hs]⟩
    | none =>
      cases hb : r.jsonBody with
      | error e =>
        right
        exact ⟨e, by simp [get_exchange_rate_openai, h, hs, hb],
          by simp [get_exchange_rate_vertex, h, hs, hb]⟩
      | ok j =>
        left
        have hr : r = ⟨none, Except.ok j⟩ := by cases r; simp_all
        exact ⟨j, by rw [hr],
          by simp [get_exchange_rate_openai, h, hs, hb],
          by simp [get_exchange_rate_vertex, h, hs, hb]⟩

/-- C7: when the parsed arguments omit `currency_date`, the driver defaults
it to `"latest"` and the single-call run issues exactly one outbound
request, against the `latest` path with the `from` and `to` parameters
taken from the arguments. -/
theorem C7_defaults_currency_date (model : ModelOracle) (http : HttpService)
    (loads : JsonLoads) (messages0 : List Turn) (q : String) (tc : ToolCall)
    (fields : List (String × Json))
    (h0 : (model 0).tool_calls = [tc])
    (hname : tc.name = "get_exchange_rate")
    (hload : loads tc.arguments = some (Json.obj fields))
    (hdate : fields.lookup "currency_date" = none) :
    ∃ t, mainOpenAI model http loads messages0 q = .ok t ∧
      t.execs = [⟨"https://api.frankfurter.app/latest",
        getD fields "currency_from" Json.null,
        getD fields "currency_to" Json.null⟩] := by
  refine ⟨_, mainOpenAI_single_call model http loads messages0 q tc fields
    h0 hname hload, ?_⟩
  simp [exchangeRequestOf, mkExchangeRequest, getD, hdate, pyStr]

theorem C7_defaults_currency_date_witness :
    ∃ t, mainOpenAI modelOneCall httpOk loadsFix [] "100 usd to eur" = .ok t ∧
      t.execs = [⟨"https://api.frankfurter.app/latest",
        Json.str "USD", Json.str "EUR"⟩] :=
  C7_defaults_currency_date modelOneCall httpOk loadsFix [] "100 usd to eur"
    usdEurCall
    [("currency_from", Json.str "USD"), ("currency_to", Json.str "EUR")]
    rfl rfl rfl rfl

/-- C10: when the parsed arguments omit the required `currency_from`, the
driver performs no local validation against the declared `required` set:
the run still succeeds, `get_exchange_rate` is invoked with `None` for the
missing field, and exactly one outbound request is issued, carrying `None`
as its `from` parameter. -/
theorem C10_no_required_validation (model : ModelOracle) (http : HttpService)
    (loads : JsonLoads) (messages0 : List Turn) (q : String) (tc : ToolCall)
    (fields : List (String × Json))
    (h0 : (model 0).tool_calls = [tc])
    (hname : tc.name = "get_exchange_rate")
    (hload : loads tc.arguments = some (Json.obj fields))
    (hfrom : fields.lookup "currency_from" = none) :
    ∃ t, mainOpenAI model http loads messages0 q = .ok t ∧
      t.execs = [mkExchangeRequest
        (getD fields "currency_date" (Json.str "latest")) Json.null
        (getD fields "currency_to" Json.null)] ∧
      t.results.length = 1 := by
  refine ⟨_, mainOpenAI_single_call model http loads messages0 q tc fields
    h0 hname hload, ?_, rfl⟩
  simp [exchangeRequestOf, getD, hfrom]

theorem C10_no_required_validation_witness :
    ∃ t, mainOpenAI
        (fun k => if k = 0 then ⟨"", [⟨"call_3", "get_exchange_rate",
          argsOnlyTo⟩]⟩ else ⟨"follow", []⟩) httpOk loadsFix [] "eur?" = .ok t ∧
      t.execs = [mkExchangeRequest
        (getD [("currency_to", Json.str "EUR")] "currency_date"
          (Json.str "latest")) Json.null
        (getD [("currency_to", Json.str "EUR")] "currency_to" Json.null)] ∧
      t.results.length = 1 :=
  C10_no_required_validation
    (fun k => if k = 0 then ⟨"", [⟨"call_3", "get_exchange_rate",
      argsOnlyTo⟩]⟩ else ⟨"follow", []⟩) httpOk loadsFix [] "eur?"
    ⟨"call_3", "get_exchange_rate", argsOnlyTo⟩
    [("currency_to", Json.str "EUR")] rfl rfl rfl rfl

/-- C8: tool resolution is bounded to one round.  The driver never inspects
any response after the first for tool calls: two model oracles that agree
on the first response — however many tool calls their follow-up responses
carry — yield the same transcript, the same sent transcripts, the same
outbound requests, the same tool results and the same number of printed
lines. -/
theorem C8_single_resolution_round (m₁ m₂ : ModelOracle) (http : HttpService)
    (loads : JsonLoads) (messages0 : List Turn) (q : String)
    (h : m₁ 0 = m₂ 0) :
    (mainOpenAI m₁ http loads messages0 q).map resolutionView =
    (mainOpenAI m₂ http loads messages0 q).map resolutionView := by
  simp only [mainOpenAI, h]
  by_cases h0 : (m₂ 0).tool_calls = []
  · simp [h0]
  · simp only [if_neg h0]
    exact runToolCalls_first_response_only m₁ m₂ http loads (m₂ 0)
      (m₂ 0).tool_calls messages0 1 [messages0] [] [] [] [] rfl

theorem C8_single_resolution_round_witness :
    (mainOpenAI modelOneCall httpOk loadsFix [] "100 usd to eur").map
        resolutionView =
    (mainOpenAI modelSecondHasCalls httpOk loadsFix [] "100 usd to eur").map
        resolutionView :=
  C8_single_resolution_round modelOneCall modelSecondHasCalls httpOk loadsFix
    [] "100 usd to eur" rfl

/-- C1 counterexample: the first response of `modelTwoCalls` carries two
tool calls, so the claim requires exactly one follow-up query — two sent
transcripts in total.  The driver issues the follow-up inside the per-call
loop and sends three transcripts. -/
theorem C1_counterexample :
    (mainOpenAI modelTwoCalls httpOk loadsFix [] "q").map
      (fun t => t.sent.length) ≠ Except.ok 2 := by
  have h : (mainOpenAI modelTwoCalls httpOk loadsFix [] "q").map
      (fun t => t.sent.length) = Except.ok 3 := rfl
  rw [h]
  simp

/-- C1 amended: on any run that terminates normally the driver executes
the matching tool calls of the first response in response order (the
outbound requests are their requests, in order), but it issues one
follow-up model query per executed call — so the total number of sent
transcripts is one more than the number of executed calls, and only for a
single-call batch is the follow-up unique. -/
theorem C1_per_call_follow_up (model : ModelOracle) (http : HttpService)
    (loads : JsonLoads) (messages0 : List Turn) (q : String) (t : OpenAITrace)
    (h : mainOpenAI model http loads messages0 q = .ok t) :
    t.execs = (model 0).tool_calls.filterMap (reqOfCall loads) ∧
    t.sent.length = 1 + t.execs.length ∧
    t.results.length = t.execs.length := by
  by_cases h0 : (model 0).tool_calls = []
  · simp only [mainOpenAI, h0, if_pos] at h
    cases h
    simp [h0]
  · simp only [mainOpenAI, if_neg h0] at h
    obtain ⟨he, hs, hr, _⟩ := runToolCalls_ok_spec model http loads (model 0)
      (model 0).tool_calls messages0 1 [messages0] [] [] [] t h
    refine ⟨by simpa using he, ?_, ?_⟩ <;>
      rw [he] <;> simp [hs, hr]

theorem C1_per_call_follow_up_witness :
    ∃ t, mainOpenAI modelTwoCalls httpOk loadsFix [] "q" = .ok t ∧
      (t.execs = (modelTwoCalls 0).tool_calls.filterMap (reqOfCall loadsFix) ∧
       t.sent.length = 1 + t.execs.length ∧
       t.results.length = t.execs.length) := by
  have hok : (mainOpenAI modelTwoCalls httpOk loadsFix [] "q").toOption.isSome
      = true := rfl
  cases h : mainOpenAI modelTwoCalls httpOk loadsFix [] "q" with
  | error e => rw [h] at hok; simp [Except.toOption] at hok
  | ok t =>
    exact ⟨t, rfl, C1_per_call_follow_up modelTwoCalls httpOk loadsFix [] "q" t h⟩

/-- C4 counterexample: the model requests the unregistered tool
`"unknown_tool"`; the run ends normally with the transcript unchanged —
no `tool` turn (in particular none carrying a Failure mentioning the tool
name) is appended, no request is issued, and nothing is printed. -/
theorem C4_counterexample :
    mainOpenAI modelUnknown httpOk loadsFix [] "q" =
      Except.ok ⟨[], [[]], [], [], []⟩ := rfl

/-- C4 amended: a tool-call request whose name is not
`"get_exchange_rate"` is silently skipped: the notebook has no
`"unknown tool"` failure path, so a batch of only unregistered names
leaves the transcript untouched, issues no request and no follow-up
query, prints nothing, and raises nothing. -/
theorem C4_unknown_tool_skipped (model : ModelOracle) (http : HttpService)
    (loads : JsonLoads) (messages0 : List Turn) (q : String)
    (hne : (model 0).tool_calls ≠ [])
    (h : ∀ tc ∈ (model 0).tool_calls, tc.name ≠ "get_exchange_rate") :
    mainOpenAI model http loads messages0 q =
      Except.ok ⟨messages0, [messages0], [], [], []⟩ := by
  simp only [mainOpenAI, if_neg hne]
  exact runToolCalls_skip_all model http loads (model 0) (model 0).tool_calls
    messages0 1 [messages0] [] [] [] h

theorem C4_unknown_tool_skipped_witness :
    mainOpenAI modelUnknown httpOk loadsFix [] "q" =
      Except.ok ⟨[], [[]], [], [], []⟩ :=
  C4_unknown_tool_skipped modelUnknown httpOk loadsFix [] "q"
    (by decide) (by decide)

/-- C5 counterexample: the model requests the registered tool with raw
arguments `"not json"`; `json.loads` raises and the exception escapes the
whole run — no `Failure("invalid arguments")` value exists anywhere in the
notebook. -/
theorem C5_counterexample :
    mainOpenAI modelBadArgs httpOk loadsFix [] "q" =
      Except.error jsonDecodeError := rfl

/-- C5 amended: when the raw arguments of a matching call do not parse as
JSON, the parse fault propagates uncaught out of the driver (the
`json.loads` call is not guarded), aborting the query; no Failure value is
produced or appended. -/
theorem C5_parse_fault_propagates (model : ModelOracle) (http : HttpService)
    (loads : JsonLoads) (messages0 : List Turn) (q : String) (tc : ToolCall)
    (h0 : (model 0).tool_calls = [tc])
    (hname : tc.name = "get_exchange_rate")
    (hload : loads tc.arguments = none) :
    mainOpenAI model http loads messages0 q = Except.error jsonDecodeError := by
  simp only [mainOpenAI, h0]
  simp only [List.cons_ne_nil, reduceCtorEq, ite_false]
  simp only [runToolCalls, if_pos hname, hload]

theorem C5_parse_fault_propagates_witness :
    mainOpenAI modelBadArgs httpOk loadsFix [] "q" =
      Except.error jsonDecodeError :=
  C5_parse_fault_propagates modelBadArgs httpOk loadsFix [] "q" badArgsCall
    rfl rfl rfl

/-- C3: the OpenAI variant never appends the user's text.  `user_query` is
read and then unused, and the first `create` call sends the undefined
global `messages` untouched, so the whole run — transcript, queries,
requests, results and printed output — is the same function of the other
inputs whatever the user typed. -/
theorem C3_user_query_ignored (model : ModelOracle) (http : HttpService)
    (loads : JsonLoads) (messages0 : List Turn) (q q' : String) :
    mainOpenAI model http loads messages0 q =
      mainOpenAI model http loads messages0 q' := rfl

/-- The payload of the Vertex-variant tool execution on the structured
arguments. -/
def vertexResult (http : HttpService) (fields : List (String × Json)) :
    Json :=
  (get_exchange_rate_vertex http (getD fields "currency_date" (Json.str "latest"))
    (getD fields "currency_from" Json.null)
    (getD fields "currency_to" Json.null)).1

/-- Full computation of a Vertex-variant run whose first response carries
exactly one function call named `"get_exchange_rate"`. -/
theorem mainVertex_single_call (model : VModelOracle) (http : HttpService)
    (q : String) (fields : List (String × Json))
    (h0 : (model 0).function_calls = [⟨"get_exchange_rate", fields⟩]) :
    mainVertex model http q =
      ⟨[VTurn.user q, VTurn.modelResp (model 0),
        VTurn.functionResp "get_exchange_rate" (vertexResult http fields),
        VTurn.modelResp (model 1)],
       [exchangeRequestOf fields],
       [vertexResult http fields],
       ["Final response: " ++ (model 1).text]⟩ := by
  simp only [mainVertex, h0]
  simp [runFunctionCalls, get_exchange_rate_vertex_requests, vertexResult,
    exchangeRequestOf]

/-- C9 counterexample: same arguments, same service behavior (every request
faults with `"boom"`), yet the two variants' Failure payloads differ in
form — the OpenAI executor yields the plain string
`"Error fetching exchange rate: boom"` while the Vertex executor yields
the object serializing to `{"error": "boom"}`. -/
theorem C9_counterexample :
    (get_exchange_rate_openai httpBoom (Json.str "latest") (Json.str "USD")
        (Json.str "EUR")).1 ≠
      Json.dumps (get_exchange_rate_vertex httpBoom (Json.str "latest")
        (Json.str "USD") (Json.str "EUR")).1 := by
  intro h
  have h1 : (get_exchange_rate_openai httpBoom (Json.str "latest")
      (Json.str "USD") (Json.str "EUR")).1 =
      "Error fetching exchange rate: boom" := rfl
  have h2 : Json.dumps (get_exchange_rate_vertex httpBoom (Json.str "latest")
      (Json.str "USD") (Json.str "EUR")).1 =
      "\x7b\"error\": \"boom\"\x7d" := rfl
  rw [h1, h2] at h
  exact absurd h (by decide)

/-- C9 amended: the two variants agree on the resolution protocol but not
on payload form.  For the same arguments both executors issue the
identical single outbound request; on a 2xx JSON body the OpenAI payload
is exactly the JSON serialization of the Vertex payload; and for a model
response with one matching call carrying the same arguments both drivers
perform exactly one execution against the same request, issue exactly one
follow-up query and print that follow-up's text.  (The Failure payload
forms differ — see the counterexample — as do the turn shapes: the OpenAI
variant tags the result turn with the call id and omits the user query,
the Vertex variant tags it with the function name and includes the user
query.) -/
theorem C9_protocol_agreement_payload_divergence :
    (∀ (http : HttpService) (cd cf ct : Json),
      (get_exchange_rate_openai http cd cf ct).2 =
        (get_exchange_rate_vertex http cd cf ct).2) ∧
    (∀ (http : HttpService) (cd cf ct : Json) (j : Json),
      http (mkExchangeRequest cd cf ct) =
          HttpOutcome.response ⟨none, Except.ok j⟩ →
      (get_exchange_rate_openai http cd cf ct).1 =
        Json.dumps (get_exchange_rate_vertex http cd cf ct).1) ∧
    (∀ (m : ModelOracle) (v : VModelOracle) (http : HttpService)
        (loads : JsonLoads) (messages0 : List Turn) (q : String)
        (tc : ToolCall) (fields : List (String × Json)),
      (m 0).tool_calls = [tc] →
      tc.name = "get_exchange_rate" →
      loads tc.arguments = some (Json.obj fields) →
      (v 0).function_calls = [⟨"get_exchange_rate", fields⟩] →
      (mainOpenAI m http loads messages0 q).map (fun t => t.execs) =
          Except.ok (mainVertex v http q).execs ∧
        (mainOpenAI m http loads messages0 q).map (fun t => t.outputs) =
          Except.ok ["Final response: " ++ (m 1).content] ∧
        (mainVertex v http q).outputs =
          ["Final response: " ++ (v 1).text]) := by
  refine ⟨?_, ?_, ?_⟩
  · intro http cd cf ct
    rw [get_exchange_rate_openai_requests, get_exchange_rate_vertex_requests]
  · intro http cd cf ct j h
    simp [get_exchange_rate_openai, get_exchange_rate_vertex, h]
  · intro m v http loads messages0 q tc fields h0 hname hload hv
    rw [mainOpenAI_single_call m http loads messages0 q tc fields h0 hname
      hload, mainVertex_single_call v http q fields hv]
    exact ⟨rfl, rfl, rfl⟩

/-- A Vertex model oracle matching `modelOneCall`: one USD→EUR function
call, then a final answer. -/
def vmodelOneCall : VModelOracle := fun k =>
  if k = 0 then ⟨"", [⟨"get_exchange_rate",
    [("currency_from", Json.str "USD"), ("currency_to", Json.str "EUR")]⟩]⟩
  else ⟨"The exchange rate for 100 USD is 88.645 EUR.", []⟩

theorem C9_protocol_agreement_payload_divergence_witness :
    (get_exchange_rate_openai httpOk (Json.str "latest") (Json.str "USD")
        (Json.str "EUR")).2 =
      (get_exchange_rate_vertex httpOk (Json.str "latest") (Json.str "USD")
        (Json.str "EUR")).2 ∧
    (get_exchange_rate_openai httpOk (Json.str "latest") (Json.str "USD")
        (Json.str "EUR")).1 =
      Json.dumps (get_exchange_rate_vertex httpOk (Json.str "latest")
        (Json.str "USD") (Json.str "EUR")).1 ∧
    (mainOpenAI modelOneCall httpOk loadsFix [] "100 usd to eur").map
        (fun t => t.execs) =
      Except.ok (mainVertex vmodelOneCall httpOk "100 usd to eur").execs :=
  ⟨C9_protocol_agreement_payload_divergence.1 httpOk (Json.str "latest")
      (Json.str "USD") (Json.str "EUR"),
   C9_protocol_agreement_payload_divergence.2.1 httpOk (Json.str "latest")
      (Json.str "USD") (Json.str "EUR") rateBody rfl,
   (C9_protocol_agreement_payload_divergence.2.2 modelOneCall vmodelOneCall
      httpOk loadsFix [] "100 usd to eur" usdEurCall
      [("currency_from", Json.str "USD"), ("currency_to", Json.str "EUR")]
      rfl rfl rfl rfl).1⟩
